import Mathlib

/-!
Verification development for the cebl-sdk request construction and
validation layer. Definitions are shallow embeddings of the Python source
(src/cebl/utils.py, src/cebl/client.py, src/cebl/gamestats.py): dicts
become association lists, loops become structural recursion, raised
exceptions become `Except` errors, logging calls become an explicit list
of diagnostics, and network I/O becomes an explicit outcome argument.
Definitions come first, followed by the lemmas and theorems about them.
-/

namespace Cebl

/-- Embeds `ignore_keys = {"team_id", "player_id"}` from
`validate_params` (utils.py line 119). -/
def ignoreKeys : List String := ["team_id", "player_id"]

/-- One diagnostic emitted by a `logging.error` call inside
`validate_params` (utils.py lines 128 and 135): either the key is not
declared for the endpoint, or the value is outside the allowed set. -/
inductive Diag where
  | unrecognized (key : String)
  | badValue (key value : String)
deriving DecidableEq, Repr

/-- Embeds the loop of `validate_params` (utils.py lines 121-138).
`validParams` is `endpoint_config.get("params", {})` as an association
list from parameter name to its list of allowed string values; `params`
is the candidate mapping. The first component is `all_valid`; the second
collects the diagnostics logged, in loop order. A key in the ignore list
is skipped; a key absent from `validParams` logs `unrecognized` and
clears `all_valid`; a key whose allowed-value list is non-empty and does
not contain the value logs `badValue` and clears `all_valid`; the loop
always continues to the next key. -/
def validateParamsLog (validParams : List (String × List String)) :
    List (String × String) → Bool × List Diag
  | [] => (true, [])
  | (key, value) :: rest =>
    if key ∈ ignoreKeys then
      validateParamsLog validParams rest
    else
      match List.lookup key validParams with
      | none =>
        let r := validateParamsLog validParams rest
        (false, Diag.unrecognized key :: r.2)
      | some validValues =>
        if validValues ≠ [] ∧ value ∉ validValues then
          let r := validateParamsLog validParams rest
          (false, Diag.badValue key value :: r.2)
        else
          validateParamsLog validParams rest

/-- One piece of a path template string such as "/games/{year}": a
literal run of characters, or a named placeholder `{name}`. A template
is the parsed form of the `path` string an endpoint entry carries
(utils.py line 14). -/
inductive TemplatePart where
  | lit (s : String)
  | hole (name : String)
deriving DecidableEq, Repr

/-- An endpoint entry of the registry: `path` is the parsed path template
(`none` models an entry with no "path" key, which `build_url` treats as
not found), `params` the per-parameter allowed-value sets
(utils.py lines 13-15, `EndpointConfig`). -/
structure EndpointConfig where
  path : Option (List TemplatePart)
  params : List (String × List String)
deriving Repr

/-- Embeds `validate_params(endpoint_config, params)` (utils.py lines
107-138): the boolean `all_valid` returned after scanning every key. -/
def validate_params (cfg : EndpointConfig) (params : List (String × String)) : Bool :=
  (validateParamsLog cfg.params params).1

/-- The per-key acceptance condition of `validate_params`: the key is in
the ignore list, or it is declared for the endpoint and its value is in
the declared allowed-value list unless that list is empty. -/
def KeyAccepted (vp : List (String × List String)) (kv : String × String) : Prop :=
  kv.1 ∈ ignoreKeys ∨ ∃ vs, List.lookup kv.1 vp = some vs ∧ (vs = [] ∨ kv.2 ∈ vs)

/-- A parameter entry that triggers the "unrecognized parameter" log
line of `validate_params` for key `k`: its key equals `k`, is not
ignored, and is not declared for the endpoint. -/
def offendingUnrecognized (vp : List (String × List String)) (k : String)
    (kv : String × String) : Bool :=
  kv.1 == k && !(decide (kv.1 ∈ ignoreKeys)) && (List.lookup kv.1 vp).isNone

/-- What the network does for one GET request: an HTTP response with a
status code and an already-decoded JSON body of type `α`, or a
transport-level failure (`requests.RequestException`: connection error,
timeout). This is the explicit-state embedding of the I/O performed at
utils.py line 79. -/
inductive HttpOutcome (α : Type) where
  | success (status : Nat) (body : α)
  | transportError (msg : String)
deriving DecidableEq, Repr

/-- Embeds the `try` block of `make_request` (utils.py lines 78-87):
status 200 returns the decoded body, any other status logs and returns
`None`, and a `requests.RequestException` is caught, logged, and `None`
is returned. -/
def networkPhase {α : Type} : HttpOutcome α → Option α
  | .success status body => if status = 200 then some body else none
  | .transportError _ => none

/-- An outcome that is not a 200 response: any other status code, or a
transport-level failure. -/
def isBadOutcome {α : Type} : HttpOutcome α → Bool
  | .success status _ => !(status == 200)
  | .transportError _ => true

/-- Embeds `make_request` (utils.py lines 52-87). `endpoints` is the
`ENDPOINTS` registry, `endpoint_name` the optional validation hook:
when present, a missing registry entry or failed parameter validation
raises `ValueError` (modelled as `Except.error` with the message built
at utils.py lines 72 and 76) before the network is touched; otherwise
the network outcome is handled by `networkPhase` and never raises. -/
def make_request {α : Type} (endpoints : List (String × EndpointConfig))
    (endpoint_name : Option String) (params : List (String × String))
    (outcome : HttpOutcome α) : Except String (Option α) :=
  match endpoint_name with
  | some name =>
    match List.lookup name endpoints with
    | none => .error s!"Endpoint {name} not found in configuration."
    | some endpoint =>
      if validate_params endpoint params then
        .ok (networkPhase outcome)
      else
        .error s!"Invalid parameters for endpoint: {name}. Check logs for details."
  | none => .ok (networkPhase outcome)

/-- Embeds the Python `str.format(**kwargs)` call of `build_url`
(utils.py line 48) on a parsed path template: literals pass through,
each `{name}` placeholder is replaced by the value bound to `name` in
`kwargs`; a placeholder with no binding makes the whole substitution
fail (Python raises `KeyError`), modelled as `none`. -/
def renderTemplate (kwargs : List (String × String)) :
    List TemplatePart → Option String
  | [] => some ""
  | .lit s :: rest => (renderTemplate kwargs rest).map (fun r => s ++ r)
  | .hole name :: rest =>
    match List.lookup name kwargs with
    | none => none
    | some v => (renderTemplate kwargs rest).map (fun r => v ++ r)

/-- The names of the placeholders occurring in a path template. -/
def templateHoles : List TemplatePart → List String
  | [] => []
  | .lit _ :: rest => templateHoles rest
  | .hole name :: rest => name :: templateHoles rest

/-- The failure modes of `build_url` (utils.py lines 40-48): the
`ValueError` raised for a name absent from `ENDPOINTS` or an entry with
no path (line 42), the `ValueError` raised when validation fails
(line 46), and the `KeyError` raised by `str.format` for a placeholder
with no argument (line 48). -/
inductive BuildError where
  | endpointNotFound (name : String)
  | invalidParameters (name : String)
  | missingPathArgument (name : String)
deriving DecidableEq, Repr

/-- Embeds `build_url` (utils.py lines 28-49): look the endpoint up in
the registry and fail if it is absent or has no path template; validate
the keyword arguments and fail if validation rejects them; substitute
every placeholder of the path template and fail if one has no argument;
otherwise return the base address concatenated with the relative path. -/
def build_url (base : String) (endpoints : List (String × EndpointConfig))
    (endpoint_name : String) (kwargs : List (String × String)) :
    Except BuildError String :=
  match List.lookup endpoint_name endpoints with
  | none => .error (.endpointNotFound endpoint_name)
  | some endpoint =>
    match endpoint.path with
    | none => .error (.endpointNotFound endpoint_name)
    | some tmpl =>
      if validate_params endpoint kwargs then
        match renderTemplate kwargs tmpl with
        | none => .error (.missingPathArgument endpoint_name)
        | some rel => .ok (base ++ rel)
      else
        .error (.invalidParameters endpoint_name)

/-- One row of the teams endpoint's response as consumed by
`CEBLClient.__get_team_id` (client.py lines 137-140): the opaque id, the
full English name and the short English name. -/
structure TeamRecord where
  id : Int
  name_en : String
  short_name_en : String
deriving DecidableEq, Repr

/-- Models the Python `str.lower()` calls of client.py line 139:
per-character lowercasing, written as a structural map so that concrete
instances evaluate. -/
def lower (s : String) : String :=
  ⟨s.data.map Char.toLower⟩

/-- Embeds the match condition of `CEBLClient.__get_team_id`
(client.py line 139): the queried name equals the team's full name or
its short name, case-insensitively (both sides lower-cased). -/
def team_matches (team_name : String) (t : TeamRecord) : Bool :=
  lower t.name_en == lower team_name ||
    lower t.short_name_en == lower team_name

/-- Embeds `CEBLClient.__get_team_id` (client.py lines 123-142) given
the team list fetched for the year: scan the rows in order, return the
id of the first row whose full or short name matches case-insensitively,
and raise `ValueError` (the team-not-found error) when no row matches. -/
def get_team_id (team_name : String) (year : String) :
    List TeamRecord → Except String Int
  | [] => .error s!"Team {team_name} not found for year {year}"
  | t :: rest =>
    if team_matches team_name t then .ok t.id
    else get_team_id team_name year rest

/-- Embeds the parameter-building prologue of `CEBLClient.get_games`
(client.py lines 89-96): with no team name the query parameters are
empty; with a team name, a successful resolution adds the team_id
filter, and a resolution `ValueError` is caught, logged, and the call
proceeds with the filter omitted — the function cannot raise here, so
its result type is a plain list. `resolution` is the outcome of the
`__get_team_id` call. -/
def get_games_params (resolution : Except String Int) (team_name : Option String) :
    List (String × String) :=
  match team_name with
  | none => []
  | some _ =>
    match resolution with
    | .ok team_id => [("team_id", toString team_id)]
    | .error _ => []

/-- Embeds the parameter-building of
`CEBLClient.get_player_statistics_aggregated` (client.py lines 198-205):
base parameters, optional competition and segment, and — when a team
short name is supplied — an unguarded `__get_team_id` call whose
`ValueError` propagates to the caller (there is no try/except there). -/
def get_player_statistics_aggregated_params (resolution : Except String Int)
    (season mode : String) (competition segment team_short_name : Option String) :
    Except String (List (String × String)) :=
  let base := [("season", season), ("mode", mode)]
  let base := match competition with
    | some c => base ++ [("competition", c)]
    | none => base
  let base := match segment with
    | some s => base ++ [("segment", s)]
    | none => base
  match team_short_name with
  | none => .ok base
  | some _ =>
    match resolution with
    | .ok team_id => .ok (base ++ [("team_id", toString team_id)])
    | .error e => .error e

/-- Embeds the prologue of `CEBLClient.get_team_roster` (client.py
lines 226-229): an unguarded `__get_team_id` call whose `ValueError`
propagates (no try/except), followed by the path arguments handed to
`build_url` — the roster endpoint needs the team id in the path, so
there is no unscoped fallback. -/
def get_team_roster_path_args (resolution : Except String Int) (year : String) :
    Except String (List (String × String)) :=
  match resolution with
  | .error e => .error e
  | .ok team_id => .ok [("team_id", toString team_id), ("year", year)]

/-- One row of a team slot's "shot" array in the detail service's JSON
(gamestats.py lines 86-87): only the player field matters to the
embedded operations. -/
structure ShotRec where
  player : String
deriving DecidableEq, Repr

/-- One team slot of the detail JSON: its "shot" key, `none` when the
key is absent (a `KeyError` in the source). -/
structure TeamSlot where
  shot : Option (List ShotRec)
deriving Repr

/-- The detail JSON consumed by `get_shot_data`: its "tm" key maps slot
names ("1", "2") to team slots; `none` components model absent keys,
each a `KeyError` in the source. -/
structure GameData where
  tm : Option (List (String × TeamSlot))
deriving Repr

/-- The chain `game_data["tm"][k]["shot"]` (gamestats.py lines 86-87):
`none` when any key along the chain is missing. -/
def slotShots (game_data : GameData) (k : String) : Option (List ShotRec) :=
  match game_data.tm with
  | none => none
  | some slots =>
    match List.lookup k slots with
    | none => none
    | some slot => slot.shot

/-- Embeds `CEBLGameDataProvider.get_game_data` (gamestats.py lines
44-68): the network fetch of the detail JSON for a stats URL, `none` on
failure. `fetch` is the deterministic network oracle. -/
def get_game_data (fetch : String → Option GameData) (stats_url : String) :
    Option GameData :=
  fetch stats_url

/-- Embeds `CEBLGameDataProvider.get_shot_data` (gamestats.py lines
70-98): fetch the detail JSON, return the empty pair if it is absent;
otherwise read both team slots' shot lists inside a `try` whose
`KeyError` handler returns the empty pair — so if either slot "1" or
slot "2" is missing, the result is `([], [])`, and only when both are
present is it `(team1_shots, team2_shots)`. -/
def get_shot_data (fetch : String → Option GameData) (stats_url : String) :
    List ShotRec × List ShotRec :=
  match get_game_data fetch stats_url with
  | none => ([], [])
  | some game_data =>
    match slotShots game_data "1", slotShots game_data "2" with
    | some team1_shots, some team2_shots => (team1_shots, team2_shots)
    | _, _ => ([], [])

/-- A detail JSON whose slot "1" carries one shot and whose slot "2" is
missing entirely. -/
def detailMissingAway : GameData :=
  ⟨some [("1", ⟨some [⟨"A Player"⟩]⟩)]⟩

/-- One row of the games endpoint response as consumed by
`get_team_shot_data` (gamestats.py lines 116-126). -/
structure Game where
  status : String
  home_team_name : String
  away_team_name : String
  stats_url_en : String
deriving Repr

/-- The guard of the loop in `get_team_shot_data` (gamestats.py lines
117-119): the game is finished (status equals the sentinel "COMPLETE")
and the target team is its home or away team. -/
def gameRelevant (team_name : String) (g : Game) : Bool :=
  g.status == "COMPLETE" &&
    (g.home_team_name == team_name || g.away_team_name == team_name)

/-- Embeds the accumulation loop of
`CEBLGameDataProvider.get_team_shot_data` (gamestats.py lines 116-126):
for each relevant game whose detail fetch succeeds, append the home or
away shot table according to which side the target team played. -/
def collect_team_shots (fetch : String → Option GameData) (team_name : String) :
    List Game → List (List ShotRec)
  | [] => []
  | g :: rest =>
    if gameRelevant team_name g then
      match fetch g.stats_url_en with
      | some _ =>
        let p := get_shot_data fetch g.stats_url_en
        (if g.home_team_name == team_name then p.1 else p.2) ::
          collect_team_shots fetch team_name rest
      | none => collect_team_shots fetch team_name rest
    else
      collect_team_shots fetch team_name rest

/-- Embeds `CEBLGameDataProvider.get_team_shot_data` (gamestats.py
lines 100-149): run the accumulation loop over the season's games and
concatenate the collected tables (`pd.concat`, with an empty DataFrame
when the accumulator is empty). -/
def get_team_shot_data (fetch : String → Option GameData) (games : List Game)
    (team_name : String) : List ShotRec :=
  (collect_team_shots fetch team_name games).flatten

/-! Lemmas and theorems. -/

lemma validateParamsLog_fst_iff (vp : List (String × List String)) :
    ∀ l : List (String × String),
      (validateParamsLog vp l).1 = true ↔ ∀ kv ∈ l, KeyAccepted vp kv
  | [] => by simp [validateParamsLog]
  | (key, value) :: rest => by
    have ih := validateParamsLog_fst_iff vp rest
    by_cases hk : key ∈ ignoreKeys
    · simp only [validateParamsLog, if_pos hk, List.forall_mem_cons]
      constructor
      · intro h
        exact ⟨Or.inl hk, ih.mp h⟩
      · intro h
        exact ih.mpr h.2
    · cases hl : List.lookup key vp with
      | none =>
        simp only [validateParamsLog, if_neg hk, hl, List.forall_mem_cons]
        constructor
        · intro h
          exact absurd h (by simp)
        · rintro ⟨h1, -⟩
          rcases h1 with h | ⟨vs, hvs, -⟩
          · exact absurd h hk
          · simp [hl] at hvs
      | some vs =>
        by_cases hc : vs ≠ [] ∧ value ∉ vs
        · simp only [validateParamsLog, if_neg hk, hl, if_pos hc, List.forall_mem_cons]
          constructor
          · intro h
            exact absurd h (by simp)
          · rintro ⟨h1, -⟩
            rcases h1 with h | ⟨vs', hvs', hmem⟩
            · exact absurd h hk
            · simp [hl] at hvs'
              subst hvs'
              rcases hmem with he | hm
              · exact absurd he hc.1
              · exact absurd hm hc.2
        · simp only [validateParamsLog, if_neg hk, hl, if_neg hc, List.forall_mem_cons]
          push_neg at hc
          constructor
          · intro h
            refine ⟨Or.inr ⟨vs, hl, ?_⟩, ih.mp h⟩
            by_cases he : vs = []
            · exact Or.inl he
            · exact Or.inr (hc he)
          · intro h
            exact ih.mpr h.2

/-- Claim C1: `validate_params` returns true iff every key of the
parameter mapping is either in the ignore list `{team_id, player_id}` or
is declared among the endpoint schema's parameter names with its value a
member of the declared allowed-value list, that list being empty meaning
any value is accepted (utils.py lines 107-138). -/
theorem validate_params_true_iff (cfg : EndpointConfig) (params : List (String × String)) :
    validate_params cfg params = true ↔
      ∀ kv ∈ params, kv.1 ∈ ignoreKeys ∨
        ∃ vs, List.lookup kv.1 cfg.params = some vs ∧ (vs = [] ∨ kv.2 ∈ vs) :=
  validateParamsLog_fst_iff cfg.params params

/-- Instantiation of `validate_params_true_iff` at concrete inputs: a
mapping with a declared mode value and an ignored identifier passes. -/
theorem validate_params_true_iff_witness :
    validate_params ⟨none, [("mode", ["PER_GAME", "TOTALS"])]⟩
      [("mode", "TOTALS"), ("team_id", "7")] = true :=
  (validate_params_true_iff ⟨none, [("mode", ["PER_GAME", "TOTALS"])]⟩
    [("mode", "TOTALS"), ("team_id", "7")]).mpr (by decide)

lemma count_unrecognized (vp : List (String × List String)) (k : String) :
    ∀ l : List (String × String),
      (validateParamsLog vp l).2.count (Diag.unrecognized k) =
        l.countP (offendingUnrecognized vp k)
  | [] => by simp [validateParamsLog]
  | (key, value) :: rest => by
    have ih := count_unrecognized vp k rest
    by_cases hk : key ∈ ignoreKeys
    · simp [validateParamsLog, hk, List.countP_cons, offendingUnrecognized, ih]
    · cases hl : List.lookup key vp with
      | none =>
        by_cases hkk : key = k
        · subst hkk
          simp [validateParamsLog, hk, hl, List.countP_cons, offendingUnrecognized,
            List.count_cons, ih]
        · simp [validateParamsLog, hk, hl, List.countP_cons, offendingUnrecognized,
            List.count_cons, ih, hkk]
      | some vs =>
        by_cases hc : vs ≠ [] ∧ value ∉ vs
        · simp [validateParamsLog, hk, hl, hc, List.countP_cons, offendingUnrecognized,
            List.count_cons, ih]
        · simp [validateParamsLog, hk, hl, hc, List.countP_cons, offendingUnrecognized,
            ih]

lemma countP_eq_one_of_key (p : String × String → Bool) (k : String)
    (hkey : ∀ kv, p kv = true → kv.1 = k) :
    ∀ l : List (String × String), (l.map Prod.fst).Nodup →
      (∃ kv ∈ l, p kv = true) → l.countP p = 1
  | [] => by
    rintro - ⟨kv, hmem, -⟩
    simp at hmem
  | hd :: tl => by
    intro hnd hex
    rw [List.map_cons, List.nodup_cons] at hnd
    cases hp : p hd with
    | true =>
      have htl : tl.countP p = 0 := by
        rw [List.countP_eq_zero]
        intro kv hkv hpkv
        have h1 : kv.1 ∈ tl.map Prod.fst := List.mem_map_of_mem _ hkv
        rw [hkey kv hpkv, ← hkey hd hp] at h1
        exact hnd.1 h1
      simp [List.countP_cons, hp, htl]
    | false =>
      obtain ⟨kv, hmem, hpkv⟩ := hex
      rcases List.mem_cons.mp hmem with he | htl
      · subst he
        rw [hp] at hpkv
        cases hpkv
      · have := countP_eq_one_of_key p k hkey tl hnd.2 ⟨kv, htl, hpkv⟩
        simp [List.countP_cons, hp, this]

/-- Claim C8: when the parameter mapping (with distinct keys, as a dict
has) contains a key that is neither ignored nor declared for the
endpoint, `validate_params` returns false, and the "unrecognized
parameter" diagnostic is logged exactly once for each such offending key
(the loop keeps checking the remaining keys; utils.py lines 121-138). -/
theorem validate_params_unrecognized_key (cfg : EndpointConfig)
    (params : List (String × String))
    (hnd : (params.map Prod.fst).Nodup)
    (hex : ∃ kv ∈ params, kv.1 ∉ ignoreKeys ∧ List.lookup kv.1 cfg.params = none) :
    validate_params cfg params = false ∧
      ∀ k v, (k, v) ∈ params → k ∉ ignoreKeys → List.lookup k cfg.params = none →
        (validateParamsLog cfg.params params).2.count (Diag.unrecognized k) = 1 := by
  constructor
  · obtain ⟨kv, hmem, hign, hlk⟩ := hex
    have hnot : ¬ ∀ kv ∈ params, KeyAccepted cfg.params kv := by
      intro hall
      rcases hall kv hmem with h | ⟨vs, hvs, -⟩
      · exact hign h
      · rw [hlk] at hvs
        cases hvs
    have := (validateParamsLog_fst_iff cfg.params params).not.mpr hnot
    exact Bool.not_eq_true _ ▸ this
  · intro k v hmem hign hlk
    rw [count_unrecognized]
    refine countP_eq_one_of_key (offendingUnrecognized cfg.params k) k ?_ params hnd
      ⟨(k, v), hmem, ?_⟩
    · intro kv hp
      simp only [offendingUnrecognized, Bool.and_eq_true, beq_iff_eq] at hp
      exact hp.1.1
    · simp [offendingUnrecognized, hign, hlk]

/-- Instantiation of `validate_params_unrecognized_key`: a mapping with
the single undeclared key "bogus" is rejected with one diagnostic. -/
theorem validate_params_unrecognized_key_witness :
    validate_params ⟨none, [("mode", ["PER_GAME"])]⟩ [("bogus", "1")] = false ∧
      (validateParamsLog [("mode", ["PER_GAME"])] [("bogus", "1")]).2.count
        (Diag.unrecognized "bogus") = 1 := by
  have h := validate_params_unrecognized_key ⟨none, [("mode", ["PER_GAME"])]⟩
    [("bogus", "1")] (by decide) ⟨("bogus", "1"), by decide, by decide, by decide⟩
  exact ⟨h.1, h.2 "bogus" "1" (by decide) (by decide) (by decide)⟩

/-- Claim C2: whenever `make_request` reaches the network (no
endpoint-name pre-check, or the pre-checks pass) and the response status
is not 200 or the request fails at transport level, it does not raise:
it logs the failure and returns `None` (utils.py lines 78-87). -/
theorem make_request_soft_failure {α : Type}
    (endpoints : List (String × EndpointConfig)) (endpoint_name : Option String)
    (params : List (String × String)) (outcome : HttpOutcome α)
    (hbad : isBadOutcome outcome = true)
    (hpre : endpoint_name = none ∨
      ∃ name endpoint, endpoint_name = some name ∧
        List.lookup name endpoints = some endpoint ∧
        validate_params endpoint params = true) :
    make_request endpoints endpoint_name params outcome = .ok none := by
  have hnet : networkPhase outcome = none := by
    cases outcome with
    | success status body =>
      simp only [isBadOutcome, Bool.not_eq_eq_eq_not, Bool.not_true, beq_eq_false_iff_ne,
        ne_eq] at hbad
      simp [networkPhase, hbad]
    | transportError msg => rfl
  rcases hpre with h | ⟨name, endpoint, hen, hlk, hv⟩
  · subst h
    simp [make_request, hnet]
  · subst hen
    simp [make_request, hlk, hv, hnet]

/-- Instantiation of `make_request_soft_failure`: a 404 response through
the bare gateway (no endpoint name) yields `Except.ok none`. -/
theorem make_request_soft_failure_witness :
    make_request ([] : List (String × EndpointConfig)) none []
      (HttpOutcome.success 404 "body") = .ok none :=
  make_request_soft_failure [] none [] (HttpOutcome.success 404 "body")
    (by decide) (Or.inl rfl)

/-- Claim C10: when `make_request` is given an endpoint name, it can
raise before any network activity: a name absent from the registry
raises `ValueError`, and parameters failing validation raise
`ValueError` — in both cases the result does not depend on the network
outcome at all (utils.py lines 69-76). -/
theorem make_request_precheck_raises {α : Type}
    (endpoints : List (String × EndpointConfig)) (name : String)
    (params : List (String × String)) (outcome : HttpOutcome α) :
    (List.lookup name endpoints = none →
      make_request endpoints (some name) params outcome =
        .error s!"Endpoint {name} not found in configuration.") ∧
    (∀ endpoint, List.lookup name endpoints = some endpoint →
      validate_params endpoint params = false →
      make_request endpoints (some name) params outcome =
        .error s!"Invalid parameters for endpoint: {name}. Check logs for details.") := by
  constructor
  · intro hlk
    simp [make_request, hlk]
  · intro endpoint hlk hv
    simp [make_request, hlk, hv]

/-- Instantiation of `make_request_precheck_raises`: an unknown endpoint
name raises even though the network outcome would have been a clean 200
response, and invalid parameters raise likewise. -/
theorem make_request_precheck_raises_witness :
    make_request ([] : List (String × EndpointConfig)) (some "games") []
      (HttpOutcome.success 200 "body") =
        .error "Endpoint games not found in configuration." ∧
    make_request [("games", ⟨none, [("mode", ["PER_GAME"])]⟩)] (some "games")
      [("mode", "BOGUS")] (HttpOutcome.success 200 "body") =
        .error "Invalid parameters for endpoint: games. Check logs for details." :=
  ⟨(make_request_precheck_raises [] "games" [] (HttpOutcome.success 200 "body")).1 rfl,
   (make_request_precheck_raises [("games", ⟨none, [("mode", ["PER_GAME"])]⟩)] "games"
      [("mode", "BOGUS")] (HttpOutcome.success 200 "body")).2
      ⟨none, [("mode", ["PER_GAME"])]⟩ rfl (by decide)⟩

lemma renderTemplate_eq_none_iff (kwargs : List (String × String)) :
    ∀ tmpl : List TemplatePart,
      renderTemplate kwargs tmpl = none ↔
        ∃ name ∈ templateHoles tmpl, List.lookup name kwargs = none
  | [] => by simp [renderTemplate, templateHoles]
  | .lit s :: rest => by
    have ih := renderTemplate_eq_none_iff kwargs rest
    simp only [renderTemplate, templateHoles]
    rw [Option.map_eq_none', ih]
  | .hole name :: rest => by
    have ih := renderTemplate_eq_none_iff kwargs rest
    cases hl : List.lookup name kwargs with
    | none =>
      simp only [renderTemplate, templateHoles, hl]
      constructor
      · intro _
        exact ⟨name, List.mem_cons_self _ _, hl⟩
      · intro _
        trivial
    | some v =>
      simp only [renderTemplate, templateHoles, hl]
      rw [Option.map_eq_none', ih]
      constructor
      · rintro ⟨n, hmem, hnone⟩
        exact ⟨n, List.mem_cons_of_mem _ hmem, hnone⟩
      · rintro ⟨n, hmem, hnone⟩
        rcases List.mem_cons.mp hmem with he | hm
        · subst he
          rw [hl] at hnone
          cases hnone
        · exact ⟨n, hm, hnone⟩

/-- Claim C6: for an endpoint name absent from the registry, or whose
entry has no path template, `build_url` fails with the endpoint-not-
found error — for every argument mapping, so before validation and
before any path substitution (utils.py lines 40-42). -/
theorem build_url_endpoint_not_found (base : String)
    (endpoints : List (String × EndpointConfig)) (endpoint_name : String)
    (kwargs : List (String × String))
    (habs : List.lookup endpoint_name endpoints = none ∨
      ∃ endpoint, List.lookup endpoint_name endpoints = some endpoint ∧
        endpoint.path = none) :
    build_url base endpoints endpoint_name kwargs =
      .error (.endpointNotFound endpoint_name) := by
  rcases habs with h | ⟨endpoint, hlk, hpath⟩
  · simp [build_url, h]
  · simp [build_url, hlk, hpath]

/-- Instantiation of `build_url_endpoint_not_found`: an unknown name
fails even with an argument mapping that no schema would accept. -/
theorem build_url_endpoint_not_found_witness :
    build_url "https://api.data.cebl.ca" [] "nonsense" [("bogus", "1")] =
      .error (.endpointNotFound "nonsense") :=
  build_url_endpoint_not_found "https://api.data.cebl.ca" [] "nonsense"
    [("bogus", "1")] (Or.inl rfl)

/-- Claim C7: for a registered endpoint with a path template and an
argument mapping that passes validation, `build_url` fails with the
missing-path-argument error exactly when some placeholder of the
template has no argument, and otherwise returns the base address
concatenated with the substituted relative path (utils.py lines 44-49). -/
theorem build_url_renders (base : String)
    (endpoints : List (String × EndpointConfig)) (endpoint_name : String)
    (kwargs : List (String × String)) (endpoint : EndpointConfig)
    (tmpl : List TemplatePart)
    (hlk : List.lookup endpoint_name endpoints = some endpoint)
    (hpath : endpoint.path = some tmpl)
    (hv : validate_params endpoint kwargs = true) :
    ((∃ name ∈ templateHoles tmpl, List.lookup name kwargs = none) →
      build_url base endpoints endpoint_name kwargs =
        .error (.missingPathArgument endpoint_name)) ∧
    ((∀ name ∈ templateHoles tmpl, (List.lookup name kwargs).isSome) →
      ∃ rel, renderTemplate kwargs tmpl = some rel ∧
        build_url base endpoints endpoint_name kwargs = .ok (base ++ rel)) := by
  constructor
  · intro hmiss
    have hr : renderTemplate kwargs tmpl = none :=
      (renderTemplate_eq_none_iff kwargs tmpl).mpr hmiss
    simp [build_url, hlk, hpath, hv, hr]
  · intro hall
    cases hr : renderTemplate kwargs tmpl with
    | none =>
      obtain ⟨name, hmem, hnone⟩ := (renderTemplate_eq_none_iff kwargs tmpl).mp hr
      have := hall name hmem
      rw [hnone] at this
      cases this
    | some rel =>
      refine ⟨rel, rfl, ?_⟩
      simp [build_url, hlk, hpath, hv, hr]

/-- Instantiation of `build_url_renders` on the spec example: template
"/games/{year}" with argument year=2024 renders to the base address
concatenated with "/games/2024", while an empty argument mapping fails
with the missing-path-argument error. -/
theorem build_url_renders_witness :
    build_url "https://api.example.test"
      [("games", ⟨some [.lit "/games/", .hole "year"], [("year", [])]⟩)]
      "games" [("year", "2024")] = .ok "https://api.example.test/games/2024" ∧
    build_url "https://api.example.test"
      [("games", ⟨some [.lit "/games/", .hole "year"], [("year", [])]⟩)]
      "games" [] = .error (.missingPathArgument "games") := by
  constructor
  · obtain ⟨rel, hrel, hurl⟩ :=
      (build_url_renders "https://api.example.test"
        [("games", ⟨some [.lit "/games/", .hole "year"], [("year", [])]⟩)]
        "games" [("year", "2024")] ⟨some [.lit "/games/", .hole "year"], [("year", [])]⟩
        [.lit "/games/", .hole "year"] rfl rfl (by decide)).2 (by decide)
    have : rel = "/games/2024" := by
      rw [show renderTemplate [("year", "2024")] [.lit "/games/", .hole "year"] =
        some "/games/2024" from rfl] at hrel
      exact (Option.some_inj.mp hrel).symm
    rw [this] at hurl
    exact hurl
  · exact (build_url_renders "https://api.example.test"
      [("games", ⟨some [.lit "/games/", .hole "year"], [("year", [])]⟩)]
      "games" [] ⟨some [.lit "/games/", .hole "year"], [("year", [])]⟩
      [.lit "/games/", .hole "year"] rfl rfl (by decide)).1
      ⟨"year", by decide, rfl⟩

lemma get_team_id_first_match (team_name year : String) :
    ∀ pre (t : TeamRecord) post, (∀ u ∈ pre, team_matches team_name u = false) →
      team_matches team_name t = true →
      get_team_id team_name year (pre ++ t :: post) = .ok t.id
  | [], t, post => by
    intro _ ht
    simp [get_team_id, ht]
  | u :: pre, t, post => by
    intro hpre ht
    have hu : team_matches team_name u = false := hpre u (List.mem_cons_self _ _)
    have ih := get_team_id_first_match team_name year pre t post
      (fun w hw => hpre w (List.mem_cons_of_mem _ hw)) ht
    simp [get_team_id, hu, ih]

lemma get_team_id_not_found (team_name year : String) :
    ∀ teams : List TeamRecord, (∀ t ∈ teams, team_matches team_name t = false) →
      get_team_id team_name year teams =
        .error s!"Team {team_name} not found for year {year}"
  | [] => by
    intro _
    rfl
  | t :: rest => by
    intro h
    have ht : team_matches team_name t = false := h t (List.mem_cons_self _ _)
    have ih := get_team_id_not_found team_name year rest
      (fun u hu => h u (List.mem_cons_of_mem _ hu))
    simp [get_team_id, ht, ih]

/-- Claim C5: team resolution scans the year's team list in order,
matching the queried name case-insensitively against each row's full
name or short name; it returns the id of the first matching row, and
raises the team-not-found `ValueError` when no row matches either field
(client.py lines 123-142). -/
theorem get_team_id_spec (team_name year : String) (teams : List TeamRecord) :
    (∀ pre t post, teams = pre ++ t :: post →
      (∀ u ∈ pre, team_matches team_name u = false) →
      team_matches team_name t = true →
      get_team_id team_name year teams = .ok t.id) ∧
    ((∀ t ∈ teams, team_matches team_name t = false) →
      get_team_id team_name year teams =
        .error s!"Team {team_name} not found for year {year}") := by
  constructor
  · intro pre t post hsplit hpre ht
    rw [hsplit]
    exact get_team_id_first_match team_name year pre t post hpre ht
  · exact get_team_id_not_found team_name year teams

/-- Instantiation of `get_team_id_spec`: the query "CALGARY" matches the
short name "Calgary" case-insensitively, skipping the earlier
non-matching row, and a name absent from the list is an error. -/
theorem get_team_id_spec_witness :
    get_team_id "CALGARY" "2024"
      [⟨7, "Edmonton Stingers", "Edmonton"⟩, ⟨3, "Calgary Surge", "Calgary"⟩] =
        .ok 3 ∧
    get_team_id "Vancouver" "2024"
      [⟨7, "Edmonton Stingers", "Edmonton"⟩, ⟨3, "Calgary Surge", "Calgary"⟩] =
        .error "Team Vancouver not found for year 2024" :=
  ⟨(get_team_id_spec "CALGARY" "2024"
      [⟨7, "Edmonton Stingers", "Edmonton"⟩, ⟨3, "Calgary Surge", "Calgary"⟩]).1
      [⟨7, "Edmonton Stingers", "Edmonton"⟩] ⟨3, "Calgary Surge", "Calgary"⟩ []
      rfl (by decide) (by decide),
   (get_team_id_spec "Vancouver" "2024"
      [⟨7, "Edmonton Stingers", "Edmonton"⟩, ⟨3, "Calgary Surge", "Calgary"⟩]).2
      (by decide)⟩

/-- Counterexample to claim C3: the claim asserts that every operation
scoped by team name proceeds with the team filter omitted when
resolution fails, but `get_team_roster` propagates the resolution
failure — at this concrete failed resolution the call returns no request
description at all (client.py line 226 has no try/except). -/
theorem get_team_roster_aborts_on_resolution_failure :
    ¬ ∃ args, get_team_roster_path_args
      (.error "Team Calgary not found for year 2024") "2024" = .ok args := by
  rintro ⟨args, h⟩
  cases h

/-- Claim C3 amended: of the three team-name-scoped operations only
`get_games` degrades gracefully — a resolution failure is caught and the
call proceeds with the team filter omitted — while
`get_player_statistics_aggregated` and `get_team_roster` propagate the
resolution failure to the caller (client.py lines 89-96, 203-205,
226-229). -/
theorem team_name_resolution_failure_behavior (e season mode year : String)
    (team_name : String) :
    get_games_params (.error e) (some team_name) = [] ∧
    get_player_statistics_aggregated_params (.error e) season mode none none
      (some team_name) = .error e ∧
    get_team_roster_path_args (.error e) year = .error e :=
  ⟨rfl, rfl, rfl⟩

/-- Counterexample to claim C4: on a detail JSON whose slot "1" has a
non-empty shot list but whose slot "2" is missing, `get_shot_data` does
not return the home shots paired with an empty table — the `KeyError`
raised while reading slot "2" aborts the `try` block before anything is
returned, and the handler returns the empty pair (gamestats.py lines
85-98). -/
theorem get_shot_data_missing_away_counterexample :
    get_shot_data (fun _ => some detailMissingAway) "url" ≠
      ([ShotRec.mk "A Player"], ([] : List ShotRec)) := by
  decide

/-- Claim C4 amended: on a detail JSON missing team slot "2" (with or
without home shots present), `get_shot_data` returns the pair
`([], [])` — both sides empty — without raising; the home side's shots
are discarded because the `KeyError` handler returns fresh empty tables
(gamestats.py lines 96-98). -/
theorem get_shot_data_missing_away (fetch : String → Option GameData)
    (stats_url : String) (game_data : GameData)
    (hfetch : fetch stats_url = some game_data)
    (hmiss : slotShots game_data "2" = none) :
    get_shot_data fetch stats_url = ([], []) := by
  unfold get_shot_data get_game_data
  rw [hfetch]
  cases h1 : slotShots game_data "1" with
  | none => simp [hmiss]
  | some s1 => simp [hmiss]

/-- Instantiation of `get_shot_data_missing_away` at the concrete
detail JSON with a home shot and no away slot. -/
theorem get_shot_data_missing_away_witness :
    get_shot_data (fun _ => some detailMissingAway) "url" = ([], []) :=
  get_shot_data_missing_away (fun _ => some detailMissingAway) "url"
    detailMissingAway rfl rfl

/-- Claim C9: over a season's game list in which no game both has the
completion status "COMPLETE" and names the target team as its home or
away team, `get_team_shot_data` returns the empty zero-row table rather
than raising (gamestats.py lines 112-140). -/
theorem get_team_shot_data_empty (fetch : String → Option GameData)
    (games : List Game) (team_name : String)
    (h : ∀ g ∈ games, ¬(g.status = "COMPLETE" ∧
      (g.home_team_name = team_name ∨ g.away_team_name = team_name))) :
    get_team_shot_data fetch games team_name = [] := by
  have hcol : ∀ gs : List Game,
      (∀ g ∈ gs, ¬(g.status = "COMPLETE" ∧
        (g.home_team_name = team_name ∨ g.away_team_name = team_name))) →
      collect_team_shots fetch team_name gs = [] := by
    intro gs
    induction gs with
    | nil =>
      intro _
      rfl
    | cons g rest ih =>
      intro hall
      have hg : gameRelevant team_name g = false := by
        cases hgb : gameRelevant team_name g with
        | false => rfl
        | true =>
          exfalso
          apply hall g (List.mem_cons_self _ _)
          simpa [gameRelevant] using hgb
      simp [collect_team_shots, hg,
        ih (fun u hu => hall u (List.mem_cons_of_mem _ hu))]
  unfold get_team_shot_data
  rw [hcol games h]
  rfl

/-- Instantiation of `get_team_shot_data_empty`: a season whose only
game is still scheduled yields the empty table for its home team. -/
theorem get_team_shot_data_empty_witness :
    get_team_shot_data (fun _ => none)
      [⟨"SCHEDULED", "Calgary Surge", "Edmonton Stingers", "u"⟩]
      "Calgary Surge" = [] :=
  get_team_shot_data_empty (fun _ => none)
    [⟨"SCHEDULED", "Calgary Surge", "Edmonton Stingers", "u"⟩]
    "Calgary Surge" (by decide)

end Cebl
